import Mathlib

/-!
Verification of the upload-event handler `process_file` in `src/main.py`.

The handler receives one upload notification (a flat mapping), extracts
five fields (`bucket` and `name` required via indexing, `contentType`,
`size`, `timeCreated` optional via permissive lookup with defaults),
prints a seven-line summary, and wraps the final processing section in a
try/except that logs and re-raises any error.

The embedding below translates the handler line by line.  Python values
that can occur in the mapping are modelled by `Value` (strings, integers
and `None`); the observable behaviour of one invocation is a trace of
`Effect`s (the handler only ever prints, but the effect vocabulary also
has network, filesystem and database constructors so that the frame
property is expressible) together with an `Except` result standing for
normal return versus a raised exception.
-/

/-- A Python value that may occur in an upload notification: a string,
an integer, or `None` (called `null` here to avoid clashing with
`Option.none`). -/
inductive Value where
  | str (s : String)
  | int (n : Int)
  | null
deriving DecidableEq, Repr

/-- Python `str()` as used by the f-strings in `process_file`:
strings render verbatim, integers in decimal, `None` as `"None"`. -/
def pyStr : Value → String
  | Value.str s => s
  | Value.int n => toString n
  | Value.null => "None"

/-- An exception raised during the handler.  `keyError k` models the
`KeyError` raised by `data[k]` when `k` is absent; `other` models any
exception raised by a future processing step. -/
inductive PyError where
  | keyError (k : String)
  | other (msg : String)
deriving DecidableEq, Repr

/-- Python `str(e)` for an exception, as used by the error log line.
(Python quotes the key of a `KeyError`; the quoting is immaterial here
because key errors are raised before the try block and therefore never
reach the error log line.) -/
def errMsg : PyError → String
  | PyError.keyError k => k
  | PyError.other msg => msg

/-- An upload notification: the flat key/value mapping delivered in
`cloud_event.data`.  Modelled as an association list; lookup takes the
first binding, matching a Python dict whose keys are unique. -/
def Notification := List (String × Value)

/-- Python `dict` lookup: `dictGet data k` is `some v` when `k` is bound
to `v` in the mapping and `none` when the key is absent.  `data[k]`
is this with a `KeyError` on `none`; `data.get(k, d)` is `(dictGet
data k).getD d`. -/
def dictGet (data : Notification) (k : String) : Option Value :=
  match data with
  | [] => Option.none
  | (k2, v) :: rest => if k2 = k then Option.some v else dictGet rest k

/-- One observable side effect of an invocation.  The handler only ever
performs `emit` (a `print` of one line); the remaining constructors give
the vocabulary in which absence of network, filesystem and database
access is stated. -/
inductive Effect where
  | emit (line : String)
  | network (desc : String)
  | filesystem (desc : String)
  | database (desc : String)
deriving DecidableEq, Repr

/-- `true` exactly on the `emit` effect (a write to the logging/output
stream). -/
def isEmit : Effect → Bool
  | Effect.emit _ => true
  | _ => false

/-- The lines printed during an invocation, in order: the `emit`
contents of the effect trace. -/
def emittedLines : List Effect → List String
  | [] => []
  | Effect.emit s :: rest => s :: emittedLines rest
  | Effect.network _ :: rest => emittedLines rest
  | Effect.filesystem _ :: rest => emittedLines rest
  | Effect.database _ :: rest => emittedLines rest

/-- The outcome of one invocation of the handler: the trace of effects
it performed, and either normal return (`Except.ok ()`, the function
returns `None`) or a raised exception. -/
structure RunResult where
  effects : List Effect
  result : Except PyError Unit
deriving Repr

/-- `process_file` from `src/main.py` (lines 20-60), parameterised by
the custom processing step.  The `step` argument stands for the
commented-out extension point inside the try block (the example
download/processing code, lines 48-56): it receives the bucket and file
names and either succeeds or raises.  The source as written has no such
step; `process_file` below instantiates `step` with the trivial one.

Translation, in source order: read `data["bucket"]` and `data["name"]`
(each raising `KeyError` when absent), read the three optional fields
with `data.get` and its defaults, print the six summary lines, then the
try block prints the success line and runs the step; the except clause
prints `Error processing file <name>: <str(e)>` and re-raises the same
exception. -/
def process_file_with (step : Value → Value → Except PyError Unit)
    (data : Notification) : RunResult :=
  match dictGet data "bucket" with
  | Option.none => { effects := [], result := Except.error (PyError.keyError "bucket") }
  | Option.some bucket_name =>
    match dictGet data "name" with
    | Option.none => { effects := [], result := Except.error (PyError.keyError "name") }
    | Option.some file_name =>
      let content_type := (dictGet data "contentType").getD (Value.str "unknown")
      let size := (dictGet data "size").getD (Value.int 0)
      let time_created := (dictGet data "timeCreated").getD Value.null
      let headerEff : List Effect :=
        [Effect.emit "Processing file upload:",
         Effect.emit ("  Bucket: " ++ pyStr bucket_name),
         Effect.emit ("  File: " ++ pyStr file_name),
         Effect.emit ("  Content Type: " ++ pyStr content_type),
         Effect.emit ("  Size: " ++ pyStr size ++ " bytes"),
         Effect.emit ("  Created: " ++ pyStr time_created)]
      let successEff : Effect :=
        Effect.emit ("Successfully processed file: " ++ pyStr file_name)
      match step bucket_name file_name with
      | Except.ok _ =>
        { effects := headerEff ++ [successEff], result := Except.ok () }
      | Except.error e =>
        { effects := headerEff ++
            [successEff,
             Effect.emit ("Error processing file " ++ pyStr file_name ++ ": " ++ errMsg e)],
          result := Except.error e }

/-- `process_file` exactly as in `src/main.py`: the custom processing
step is absent (only comments), so the try block is just the success
print, which cannot raise. -/
def process_file (data : Notification) : RunResult :=
  process_file_with (fun _ _ => Except.ok ()) data

/-- The state visible across invocations: the accumulated log.  The
module has no mutable globals, so the log sink is the only state an
invocation touches. -/
structure World where
  log : List Effect
deriving Repr

/-- The world before any invocation: an empty log. -/
def World.init : World := { log := [] }

/-- One platform dispatch of the handler: run `process_file` on the
notification, append its effects to the world's log, and surface its
return/raise outcome. -/
def invoke (w : World) (data : Notification) : World × Except PyError Unit :=
  let r := process_file data
  ({ log := w.log ++ r.effects }, r.result)

/-! ## Example notifications used by the witnesses -/

/-- A minimal well-formed notification: both required keys, no optional
ones. -/
def demoA : Notification :=
  [("bucket", Value.str "pics"), ("name", Value.str "cat.png")]

/-- Scenario A of the spec: all five recognized fields present. -/
def scenarioA : Notification :=
  [("bucket", Value.str "uploads"), ("name", Value.str "a.txt"),
   ("contentType", Value.str "text/plain"), ("size", Value.int 120),
   ("timeCreated", Value.str "2024-01-01T00:00:00Z")]

/-- A malformed notification: the required key `name` is absent. -/
def demoMissingName : Notification := [("bucket", Value.str "uploads")]

/-- A malformed notification: the required key `bucket` is absent. -/
def demoMissingBucket : Notification := [("name", Value.str "e.txt")]

/-- Scenario B of the spec: only the required keys. -/
def demoB : Notification :=
  [("bucket", Value.str "uploads"), ("name", Value.str "b.bin")]

/-- A well-formed notification used to exercise the failing step. -/
def demoC5 : Notification :=
  [("bucket", Value.str "uploads"), ("name", Value.str "c.pdf")]

/-- A processing step that always raises, standing for a failing future
processing step inside the try block. -/
def failingStep : Value → Value → Except PyError Unit :=
  fun _ _ => Except.error (PyError.other "boom")

/-- A notification whose optional keys are bound explicitly to `None`. -/
def demoC8 : Notification :=
  [("bucket", Value.str "uploads"), ("name", Value.str "d.txt"),
   ("contentType", Value.null), ("size", Value.null)]

/-- A notification with only the five recognized keys readable. -/
def demoC10a : Notification :=
  [("bucket", Value.str "b1"), ("name", Value.str "f1")]

/-- The same recognized fields as `demoC10a` plus two unrecognized
keys. -/
def demoC10b : Notification :=
  [("bucket", Value.str "b1"), ("name", Value.str "f1"),
   ("extra", Value.int 7), ("color", Value.str "red")]

/-! ## Claims -/

/-- Claim C1: for every notification containing both `bucket` and
`name`, `process_file` raises no error, emits the multi-line
`Processing file upload:` entry listing the five fields one per line in
the fixed order bucket, file, content type, size, created, then the
`Successfully processed file: <name>` line, and returns no result
value. -/
theorem spec_c1 (data : Notification) (b nm : Value)
    (hb : dictGet data "bucket" = Option.some b)
    (hn : dictGet data "name" = Option.some nm) :
    (process_file data).result = Except.ok () ∧
    emittedLines (process_file data).effects =
      ["Processing file upload:",
       "  Bucket: " ++ pyStr b,
       "  File: " ++ pyStr nm,
       "  Content Type: " ++ pyStr ((dictGet data "contentType").getD (Value.str "unknown")),
       "  Size: " ++ pyStr ((dictGet data "size").getD (Value.int 0)) ++ " bytes",
       "  Created: " ++ pyStr ((dictGet data "timeCreated").getD Value.null),
       "Successfully processed file: " ++ pyStr nm] := by
  simp only [process_file, process_file_with, hb, hn]
  exact ⟨trivial, rfl⟩

/-- Witness for C1 at a concrete well-formed notification. -/
theorem spec_c1_witness :
    dictGet demoA "bucket" = Option.some (Value.str "pics") ∧
    dictGet demoA "name" = Option.some (Value.str "cat.png") ∧
    ((process_file demoA).result = Except.ok () ∧
     emittedLines (process_file demoA).effects =
       ["Processing file upload:",
        "  Bucket: pics",
        "  File: cat.png",
        "  Content Type: unknown",
        "  Size: 0 bytes",
        "  Created: None",
        "Successfully processed file: cat.png"]) :=
  ⟨rfl, rfl, spec_c1 demoA (Value.str "pics") (Value.str "cat.png") rfl rfl⟩

/-- Claim C2: for every notification missing `bucket` or `name`,
`process_file` raises a generic lookup failure (a `KeyError`) and never
emits the `Successfully processed file: <name>` line. -/
theorem spec_c2 (data : Notification)
    (h : dictGet data "bucket" = Option.none ∨ dictGet data "name" = Option.none) :
    (∃ k, (process_file data).result = Except.error (PyError.keyError k)) ∧
    ∀ t : String,
      Effect.emit ("Successfully processed file: " ++ t) ∉ (process_file data).effects := by
  rcases h with h | h
  · simp only [process_file, process_file_with, h]
    exact ⟨⟨"bucket", rfl⟩, fun t => List.not_mem_nil _⟩
  · cases hb : dictGet data "bucket" with
    | none =>
        simp only [process_file, process_file_with, hb]
        exact ⟨⟨"bucket", rfl⟩, fun t => List.not_mem_nil _⟩
    | some b =>
        simp only [process_file, process_file_with, hb, h]
        exact ⟨⟨"name", rfl⟩, fun t => List.not_mem_nil _⟩

/-- Witness for C2 at a concrete notification missing `name`. -/
theorem spec_c2_witness :
    (dictGet demoMissingName "bucket" = Option.none ∨
      dictGet demoMissingName "name" = Option.none) ∧
    ((∃ k, (process_file demoMissingName).result = Except.error (PyError.keyError k)) ∧
     ∀ t : String,
       Effect.emit ("Successfully processed file: " ++ t) ∉
         (process_file demoMissingName).effects) :=
  ⟨Or.inr rfl, spec_c2 demoMissingName (Or.inr rfl)⟩

/-- Claim C3: on the Scenario A input, `process_file` produces exactly
the seven lines of the spec, in order, with no other output, and
returns normally. -/
theorem spec_c3 :
    process_file scenarioA =
      { effects :=
          [Effect.emit "Processing file upload:",
           Effect.emit "  Bucket: uploads",
           Effect.emit "  File: a.txt",
           Effect.emit "  Content Type: text/plain",
           Effect.emit "  Size: 120 bytes",
           Effect.emit "  Created: 2024-01-01T00:00:00Z",
           Effect.emit "Successfully processed file: a.txt"],
        result := Except.ok () } := by
  rfl

/-- Claim C4: when the notification has `bucket` and `name` but none of
the optional keys, the defaults apply without failing the operation:
the output shows `Content Type: unknown`, `Size: 0 bytes` and
`Created: None`. -/
theorem spec_c4 (data : Notification) (b nm : Value)
    (hb : dictGet data "bucket" = Option.some b)
    (hn : dictGet data "name" = Option.some nm)
    (hct : dictGet data "contentType" = Option.none)
    (hsz : dictGet data "size" = Option.none)
    (htc : dictGet data "timeCreated" = Option.none) :
    (process_file data).result = Except.ok () ∧
    emittedLines (process_file data).effects =
      ["Processing file upload:",
       "  Bucket: " ++ pyStr b,
       "  File: " ++ pyStr nm,
       "  Content Type: unknown",
       "  Size: 0 bytes",
       "  Created: None",
       "Successfully processed file: " ++ pyStr nm] := by
  simp only [process_file, process_file_with, hb, hn, hct, hsz, htc]
  exact ⟨trivial, rfl⟩

/-- Witness for C4 at Scenario B of the spec. -/
theorem spec_c4_witness :
    dictGet demoB "bucket" = Option.some (Value.str "uploads") ∧
    dictGet demoB "name" = Option.some (Value.str "b.bin") ∧
    dictGet demoB "contentType" = Option.none ∧
    dictGet demoB "size" = Option.none ∧
    dictGet demoB "timeCreated" = Option.none ∧
    ((process_file demoB).result = Except.ok () ∧
     emittedLines (process_file demoB).effects =
       ["Processing file upload:",
        "  Bucket: uploads",
        "  File: b.bin",
        "  Content Type: unknown",
        "  Size: 0 bytes",
        "  Created: None",
        "Successfully processed file: b.bin"]) :=
  ⟨rfl, rfl, rfl, rfl, rfl,
   spec_c4 demoB (Value.str "uploads") (Value.str "b.bin") rfl rfl rfl rfl rfl⟩

/-- Claim C5: for a well-formed notification, when the processing step
inside the try block raises, the handler emits the line
`Error processing file <name>: <error message>` and re-raises that same
error; nothing is swallowed or recovered locally. -/
theorem spec_c5 (step : Value → Value → Except PyError Unit) (data : Notification)
    (b nm : Value) (e : PyError)
    (hb : dictGet data "bucket" = Option.some b)
    (hn : dictGet data "name" = Option.some nm)
    (hstep : step b nm = Except.error e) :
    (process_file_with step data).result = Except.error e ∧
    emittedLines (process_file_with step data).effects =
      ["Processing file upload:",
       "  Bucket: " ++ pyStr b,
       "  File: " ++ pyStr nm,
       "  Content Type: " ++ pyStr ((dictGet data "contentType").getD (Value.str "unknown")),
       "  Size: " ++ pyStr ((dictGet data "size").getD (Value.int 0)) ++ " bytes",
       "  Created: " ++ pyStr ((dictGet data "timeCreated").getD Value.null),
       "Successfully processed file: " ++ pyStr nm,
       "Error processing file " ++ pyStr nm ++ ": " ++ errMsg e] := by
  simp only [process_file_with, hb, hn, hstep]
  exact ⟨trivial, rfl⟩

/-- Witness for C5: a step that always raises, on a concrete
notification. -/
theorem spec_c5_witness :
    dictGet demoC5 "bucket" = Option.some (Value.str "uploads") ∧
    dictGet demoC5 "name" = Option.some (Value.str "c.pdf") ∧
    failingStep (Value.str "uploads") (Value.str "c.pdf") =
      Except.error (PyError.other "boom") ∧
    ((process_file_with failingStep demoC5).result =
        Except.error (PyError.other "boom") ∧
     emittedLines (process_file_with failingStep demoC5).effects =
       ["Processing file upload:",
        "  Bucket: uploads",
        "  File: c.pdf",
        "  Content Type: unknown",
        "  Size: 0 bytes",
        "  Created: None",
        "Successfully processed file: c.pdf",
        "Error processing file c.pdf: boom"]) :=
  ⟨rfl, rfl, rfl,
   spec_c5 failingStep demoC5 (Value.str "uploads") (Value.str "c.pdf")
     (PyError.other "boom") rfl rfl rfl⟩

/-- Claim C6: invoking the handler twice on the same notification
appends two identical log segments and yields the same return/raise
outcome both times; no hidden state accumulates across invocations. -/
theorem spec_c6 (data : Notification) :
    (invoke (invoke World.init data).1 data).1.log
        = (invoke World.init data).1.log ++ (invoke World.init data).1.log ∧
      (invoke (invoke World.init data).1 data).2 = (invoke World.init data).2 := by
  constructor
  · simp [invoke, World.init]
  · rfl

/-- Claim C7: the only effects of `process_file` are writes to the
logging/output stream; no network, filesystem or database effect ever
occurs in its trace. -/
theorem spec_c7 (data : Notification) :
    (process_file data).effects.all isEmit = true := by
  unfold process_file process_file_with
  cases dictGet data "bucket" <;> cases dictGet data "name" <;> simp [isEmit]

/-- Claim C8: the optional-field defaults apply only to absent keys: a
key explicitly bound to `None` is printed verbatim, giving
`  Size: None bytes` and `  Content Type: None` rather than the
defaults. -/
theorem spec_c8 (data : Notification) (b nm : Value)
    (hb : dictGet data "bucket" = Option.some b)
    (hn : dictGet data "name" = Option.some nm)
    (hct : dictGet data "contentType" = Option.some Value.null)
    (hsz : dictGet data "size" = Option.some Value.null) :
    emittedLines (process_file data).effects =
      ["Processing file upload:",
       "  Bucket: " ++ pyStr b,
       "  File: " ++ pyStr nm,
       "  Content Type: None",
       "  Size: None bytes",
       "  Created: " ++ pyStr ((dictGet data "timeCreated").getD Value.null),
       "Successfully processed file: " ++ pyStr nm] := by
  simp only [process_file, process_file_with, hb, hn, hct, hsz]
  rfl

/-- Witness for C8 at a notification binding the optional keys to
`None` explicitly. -/
theorem spec_c8_witness :
    dictGet demoC8 "bucket" = Option.some (Value.str "uploads") ∧
    dictGet demoC8 "name" = Option.some (Value.str "d.txt") ∧
    dictGet demoC8 "contentType" = Option.some Value.null ∧
    dictGet demoC8 "size" = Option.some Value.null ∧
    emittedLines (process_file demoC8).effects =
      ["Processing file upload:",
       "  Bucket: uploads",
       "  File: d.txt",
       "  Content Type: None",
       "  Size: None bytes",
       "  Created: None",
       "Successfully processed file: d.txt"] :=
  ⟨rfl, rfl, rfl, rfl,
   spec_c8 demoC8 (Value.str "uploads") (Value.str "d.txt") rfl rfl rfl rfl⟩

/-- Claim C9: extraction happens before any output, so a notification
missing `bucket` or `name` makes `process_file` raise before emitting
anything at all, not even the header line. -/
theorem spec_c9 (data : Notification)
    (h : dictGet data "bucket" = Option.none ∨ dictGet data "name" = Option.none) :
    (process_file data).effects = [] ∧
      ∃ e, (process_file data).result = Except.error e := by
  rcases h with h | h
  · simp only [process_file, process_file_with, h]
    exact ⟨trivial, ⟨PyError.keyError "bucket", rfl⟩⟩
  · cases hb : dictGet data "bucket" with
    | none =>
        simp only [process_file, process_file_with, hb]
        exact ⟨trivial, ⟨PyError.keyError "bucket", rfl⟩⟩
    | some b =>
        simp only [process_file, process_file_with, hb, h]
        exact ⟨trivial, ⟨PyError.keyError "name", rfl⟩⟩

/-- Witness for C9 at a concrete notification missing `bucket`. -/
theorem spec_c9_witness :
    (dictGet demoMissingBucket "bucket" = Option.none ∨
      dictGet demoMissingBucket "name" = Option.none) ∧
    ((process_file demoMissingBucket).effects = [] ∧
     ∃ e, (process_file demoMissingBucket).result = Except.error e) :=
  ⟨Or.inl rfl, spec_c9 demoMissingBucket (Or.inl rfl)⟩

/-- Claim C10: the handler reads no key other than the five recognized
ones: two notifications that agree on the lookups of `bucket`, `name`,
`contentType`, `size` and `timeCreated` get identical output and
return/raise behaviour, whatever other keys they carry. -/
theorem spec_c10 (d1 d2 : Notification)
    (hb : dictGet d1 "bucket" = dictGet d2 "bucket")
    (hn : dictGet d1 "name" = dictGet d2 "name")
    (hct : dictGet d1 "contentType" = dictGet d2 "contentType")
    (hsz : dictGet d1 "size" = dictGet d2 "size")
    (htc : dictGet d1 "timeCreated" = dictGet d2 "timeCreated") :
    process_file d1 = process_file d2 := by
  unfold process_file process_file_with
  rw [hb, hn, hct, hsz, htc]

/-- Witness for C10: adding unrecognized keys changes nothing. -/
theorem spec_c10_witness :
    dictGet demoC10a "bucket" = dictGet demoC10b "bucket" ∧
    dictGet demoC10a "name" = dictGet demoC10b "name" ∧
    dictGet demoC10a "contentType" = dictGet demoC10b "contentType" ∧
    dictGet demoC10a "size" = dictGet demoC10b "size" ∧
    dictGet demoC10a "timeCreated" = dictGet demoC10b "timeCreated" ∧
    process_file demoC10a = process_file demoC10b :=
  ⟨rfl, rfl, rfl, rfl, rfl, spec_c10 demoC10a demoC10b rfl rfl rfl rfl rfl⟩
